import Mathlib

/-!
Verification of the maplibre-gl-stars repository.

The repository contains two variants of the same effect:
* `src/stars-layer.js` — `createStarsLayer`, a MapLibre custom layer
  (no GL state snapshot/restore; star size `0.01 + 0.05 * sizeHash`);
* `src/unnamed/part_000` — `class StarsPlugin`, an IControl wrapping a custom
  layer (GL state snapshot/restore in `_render`; star size
  `0.015 + 0.025 * sizeHash`).

The embedding below models
* the constructor option handling (`options.intensity || 20.0`,
  `options.density || 0.15`) and the presence threshold baked into the
  fragment shader via the JS template literal `${(1 - density).toFixed(2)}`,
  over `ℚ`;
* the per-frame render paths of both variants as explicit state transitions on
  a `GLState` record together with the number of `drawElements` calls issued
  (crashes of the layer variant are modelled by an `Option` result);
* the coordinate transform and star-field computation of the fragment shader
  over `ℝ`, transcribed statement by statement from the GLSL source.
-/

namespace Stars

/-! ### Constructor options (both variants, identical code)

`stars-layer.js` lines 21–23 / `part_000` lines 26–28:
`this.intensity = options.intensity || 20.0; this.density = options.density || 0.15;`
`none` models an absent option, and a supplied `0` is falsy in JS, so both
fall back to the default. -/

def effectiveIntensity (o : Option ℚ) : ℚ :=
  match o with
  | none => 20
  | some x => if x = 0 then 20 else x

def effectiveDensity (o : Option ℚ) : ℚ :=
  match o with
  | none => 15/100
  | some x => if x = 0 then 15/100 else x

/-- JS `Number.prototype.toFixed(2)` on the exact decimal values appearing in
this code: round to two decimal places. -/
def toFixed2 (x : ℚ) : ℚ := (round (x * 100) : ℚ) / 100

/-- The presence threshold baked into the fragment shader source by the
template literal `${(1 - density).toFixed(2)}`
(`stars-layer.js` line 119 / `part_000` line 126). -/
def bakedThreshold (density : ℚ) : ℚ := toFixed2 (1 - density)

/-- Threshold compiled into the shader for a construction-time density
option. -/
def shaderThreshold (o : Option ℚ) : ℚ := bakedThreshold (effectiveDensity o)

/-! ### WebGL state model

Only the pieces of context state this code touches. `blendFunc` sets the RGB
and alpha factors to the same pair, and this code only ever reads the alpha
factors and only ever writes through `blendFunc`, so a single (src, dst) pair
of `GLenum` codes models the blend factors it interacts with. Program,
shader and buffer objects are modelled by `Option Nat` handles
(`none` = JS `null`). -/

def GL_ZERO : Nat := 0
def GL_ONE : Nat := 1
def GL_LESS : Nat := 513
def GL_ALWAYS : Nat := 519
def GL_SRC_ALPHA : Nat := 770
def GL_ONE_MINUS_SRC_ALPHA : Nat := 771

structure GLState where
  currentProgram : Option Nat
  depthFunc : Nat
  depthMask : Bool
  blendEnabled : Bool
  blendSrc : Nat
  blendDst : Nat
  depthTestEnabled : Bool
  arrayBuffer : Option Nat
  elementArrayBuffer : Option Nat
deriving DecidableEq, Repr

/-- A freshly created WebGL context: no program bound, depth func `LESS`,
blending off with factors `(ONE, ZERO)` — note `BLEND_DST = ZERO = 0`. -/
def glContextDefault : GLState :=
  { currentProgram := none
    depthFunc := GL_LESS
    depthMask := true
    blendEnabled := false
    blendSrc := GL_ONE
    blendDst := GL_ZERO
    depthTestEnabled := true
    arrayBuffer := none
    elementArrayBuffer := none }

/-! ### StarsPlugin (`src/unnamed/part_000`) render path -/

structure PluginState where
  map : Bool
  program : Option Nat
  vertexBuffer : Option Nat
  indexBuffer : Option Nat
deriving DecidableEq, Repr

namespace StarsPlugin

/-- Constructor field state (`part_000` lines 29–34): all references null. -/
def init : PluginState :=
  { map := false, program := none, vertexBuffer := none, indexBuffer := none }

/-- `onRemove` (`part_000` lines 344–360): releases resources and clears
`this.map` and `this.program`; the buffer fields are deleted GPU-side but the
JS references are not reassigned. -/
def onRemove (p : PluginState) : PluginState :=
  { p with map := false, program := none }

/-- `_createShader` (`part_000` lines 315–327): on compile failure, log one
diagnostic, delete the shader and return `null`. Result: (handle, number of
diagnostics logged). -/
def createShader (compileOk : Bool) (id : Nat) : Option Nat × Nat :=
  if compileOk then (some id, 0) else (none, 1)

/-- `_createProgram` (`part_000` lines 329–342): attaching a `null` shader
raises a GL error (not a JS exception) and leaves the program without that
stage, so linking succeeds only when both shaders exist and the link itself
succeeds; on failure, log one diagnostic, delete the program and return
`null`. -/
def createProgram (vs fs : Option Nat) (linkOk : Bool) (id : Nat) :
    Option Nat × Nat :=
  if vs ≠ none ∧ fs ≠ none ∧ linkOk then (some id, 0) else (none, 1)

/-- Resource outcome of `onAdd` (`part_000` lines 37–200): create both
shaders, then the program, then the two buffers; record the map reference.
Result: (plugin state, total diagnostics logged). -/
def onAddResources (vsOk fsOk linkOk : Bool) : PluginState × Nat :=
  let vs := createShader vsOk 1
  let fs := createShader fsOk 2
  let prog := createProgram vs.1 fs.1 linkOk 3
  ({ map := true, program := prog.1, vertexBuffer := some 4,
     indexBuffer := some 5 }, vs.2 + fs.2 + prog.2)

/-- `_render` (`part_000` lines 202–307) as a transition on `GLState`,
returning the new state and the number of `drawElements` calls issued.

Guards first (lines 203, 214), then the six-value snapshot (lines 219–224),
the mutations for the draw (lines 260–290), the draw, and the restore
sequence (lines 293–306). The JS restore uses truthiness tests:
`if (!oldBlendEnabled)`, `if (oldBlendSrc && oldBlendDst)` — a numeric factor
equal to 0 (= `gl.ZERO`) is falsy — and `if (oldProgram)` — a `null`
previous program is falsy. -/
def render (p : PluginState) (projectionTransition : ℚ) (gl : GLState) :
    GLState × Nat :=
  if p.map = false ∨ p.program = none then (gl, 0)
  else if projectionTransition = 0 then (gl, 0)
  else
    let oldProgram := gl.currentProgram
    let oldDepthFunc := gl.depthFunc
    let oldDepthMask := gl.depthMask
    let oldBlendEnabled := gl.blendEnabled
    let oldBlendSrc := gl.blendSrc
    let oldBlendDst := gl.blendDst
    let gl1 := { gl with currentProgram := p.program }
    let gl2 := { gl1 with arrayBuffer := p.vertexBuffer }
    let gl3 := { gl2 with elementArrayBuffer := p.indexBuffer }
    let gl4 := { gl3 with depthFunc := GL_ALWAYS }
    let gl5 := { gl4 with depthMask := false }
    let gl6 := { gl5 with blendEnabled := true }
    let gl7 := { gl6 with blendSrc := GL_SRC_ALPHA,
                          blendDst := GL_ONE_MINUS_SRC_ALPHA }
    let gl8 := { gl7 with depthFunc := oldDepthFunc }
    let gl9 := { gl8 with depthMask := oldDepthMask }
    let gl10 := if oldBlendEnabled then gl9
                else { gl9 with blendEnabled := false }
    let gl11 := if oldBlendSrc ≠ 0 ∧ oldBlendDst ≠ 0 then
                  { gl10 with blendSrc := oldBlendSrc, blendDst := oldBlendDst }
                else gl10
    let gl12 := { gl11 with arrayBuffer := none }
    let gl13 := { gl12 with elementArrayBuffer := none }
    let gl14 := match oldProgram with
      | some pr => { gl13 with currentProgram := some pr }
      | none => gl13
    (gl14, 1)

end StarsPlugin

/-! ### createStarsLayer (`src/stars-layer.js`) render path -/

structure LayerState where
  map : Bool
  program : Option Nat
  vertexBuffer : Option Nat
  indexBuffer : Option Nat
deriving DecidableEq, Repr

namespace StarsLayer

/-- Shader/program creation in `onAdd` (`stars-layer.js` lines 148–193):
compile and link failures are logged, but `this.program` is assigned the
(always non-null) object returned by `gl.createProgram()` regardless.
Result: (layer state, diagnostics logged). -/
def onAddResources (vsOk fsOk linkOk : Bool) : LayerState × Nat :=
  let d1 := if vsOk then 0 else 1
  let d2 := if fsOk then 0 else 1
  let d3 := if vsOk && fsOk && linkOk then 0 else 1
  ({ map := true, program := some 3, vertexBuffer := some 4,
     indexBuffer := some 5 }, d1 + d2 + d3)

/-- `render` (`stars-layer.js` lines 196–266). The first statement reads
`this.map.transform`, which throws a `TypeError` when `this.map` is unset
(the layer has no guard and no `onRemove`); a thrown exception is modelled by
the result `none`. Otherwise: gate on `projectionTransition === 0`, else bind
program and buffers, disable `DEPTH_TEST`, draw, re-enable `DEPTH_TEST`.
No state is snapshotted or restored. -/
def render (l : LayerState) (projectionTransition : ℚ) (gl : GLState) :
    Option (GLState × Nat) :=
  if l.map = false then none
  else if projectionTransition = 0 then some (gl, 0)
  else
    let gl1 := { gl with currentProgram := l.program }
    let gl2 := { gl1 with arrayBuffer := l.vertexBuffer }
    let gl3 := { gl2 with elementArrayBuffer := l.indexBuffer }
    let gl4 := { gl3 with depthTestEnabled := false }
    let gl5 := { gl4 with depthTestEnabled := true }
    some (gl5, 1)

end StarsLayer

/-- A plugin whose `onAdd` fully succeeded. -/
def pluginReady : PluginState :=
  { map := true, program := some 3, vertexBuffer := some 4, indexBuffer := some 5 }

/-- A layer whose `onAdd` fully succeeded. -/
def layerReady : LayerState :=
  { map := true, program := some 3, vertexBuffer := some 4, indexBuffer := some 5 }

/-- A GL state with a program bound and nonzero blend factors, as a host
renderer mid-frame would leave it. -/
def glBusy : GLState :=
  { currentProgram := some 9
    depthFunc := GL_LESS
    depthMask := true
    blendEnabled := true
    blendSrc := GL_SRC_ALPHA
    blendDst := GL_ONE_MINUS_SRC_ALPHA
    depthTestEnabled := true
    arrayBuffer := some 7
    elementArrayBuffer := some 8 }

/-! ### Fragment shader, transcribed over `ℝ`

GLSL source: `stars-layer.js` lines 46–146 and `part_000` lines 53–153. The
two variants are identical except for the star-size constants
(`0.01 + 0.05 * sizeHash` vs `0.015 + 0.025 * sizeHash`) and the baked
threshold literal. Vectors are tuples; `vec3` components are `.1`, `.2.1`,
`.2.2`. -/

noncomputable section

/-- GLSL `dot` on `vec2`. -/
def dot2 (a b : ℝ × ℝ) : ℝ := a.1 * b.1 + a.2 * b.2

/-- GLSL `normalize` on `vec3` (`ray_dir = normalize(view_direction)`). -/
def normalize3 (v : ℝ × ℝ × ℝ) : ℝ × ℝ × ℝ :=
  let n := Real.sqrt (v.1 ^ 2 + v.2.1 ^ 2 + v.2.2 ^ 2)
  (v.1 / n, v.2.1 / n, v.2.2 / n)

/-- Pitch rotation (shader lines: `cosPitch`/`sinPitch` block). -/
def rotPitch (pitch : ℝ) (v : ℝ × ℝ × ℝ) : ℝ × ℝ × ℝ :=
  (v.1,
   v.2.1 * Real.cos pitch - v.2.2 * Real.sin pitch,
   v.2.1 * Real.sin pitch + v.2.2 * Real.cos pitch)

/-- Bearing rotation (`cosBearing`/`sinBearing` block). -/
def rotBearing (bearing : ℝ) (v : ℝ × ℝ × ℝ) : ℝ × ℝ × ℝ :=
  (v.1 * Real.cos bearing - v.2.2 * Real.sin bearing,
   v.2.1,
   v.1 * Real.sin bearing + v.2.2 * Real.cos bearing)

/-- Roll rotation (`cosRoll`/`sinRoll` block). -/
def rotRoll (roll : ℝ) (v : ℝ × ℝ × ℝ) : ℝ × ℝ × ℝ :=
  (v.1 * Real.cos roll - v.2.1 * Real.sin roll,
   v.1 * Real.sin roll + v.2.1 * Real.cos roll,
   v.2.2)

/-- Globe-center latitude rotation (`cosLat`/`sinLat` block). -/
def rotGlobeLat (lat : ℝ) (v : ℝ × ℝ × ℝ) : ℝ × ℝ × ℝ :=
  (v.1,
   v.2.1 * Real.cos lat + v.2.2 * Real.sin lat,
   -v.2.1 * Real.sin lat + v.2.2 * Real.cos lat)

/-- Globe-center longitude rotation (`cosLng`/`sinLng` block). -/
def rotGlobeLng (lng : ℝ) (v : ℝ × ℝ × ℝ) : ℝ × ℝ × ℝ :=
  (v.1 * Real.cos lng + v.2.2 * Real.sin lng,
   v.2.1,
   -v.1 * Real.sin lng + v.2.2 * Real.cos lng)

/-- The five rotations exactly as sequenced in the shader `main`:
pitch, bearing, roll, globe latitude, globe longitude.
`angles = u_camera_angles`, `center = u_globe_center`. -/
def rotatedRay (angles : ℝ × ℝ × ℝ) (center : ℝ × ℝ) (ray : ℝ × ℝ × ℝ) :
    ℝ × ℝ × ℝ :=
  rotGlobeLng center.1
    (rotGlobeLat center.2
      (rotRoll angles.2.2
        (rotBearing angles.2.1
          (rotPitch angles.1 ray))))

/-- GLSL two-argument `atan(y, x)`, the standard atan2, via the complex
argument of `x + y*I`. -/
def atan2 (y x : ℝ) : ℝ := Complex.arg ⟨x, y⟩

/-- `lng = atan(rotated.x, rotated.z); lat = asin(rotated.y)`. -/
def rayLngLat (angles : ℝ × ℝ × ℝ) (center : ℝ × ℝ) (ray : ℝ × ℝ × ℝ) :
    ℝ × ℝ :=
  let r := rotatedRay angles center ray
  (atan2 r.1 r.2.2, Real.arcsin r.2.1)

/-- `uv = vec2((lng / PI) * 0.5 + 0.5, (lat / (PI * 0.5)) * 0.5 + 0.5)`. -/
def uvOf (lngLat : ℝ × ℝ) : ℝ × ℝ :=
  ((lngLat.1 / Real.pi) * 0.5 + 0.5, (lngLat.2 / (Real.pi * 0.5)) * 0.5 + 0.5)

/-- `scaledUV = uv * 200.0`. -/
def scaledUVOf (uv : ℝ × ℝ) : ℝ × ℝ := (uv.1 * 200, uv.2 * 200)

/-- `gridPos = floor(scaledUV)`. -/
def gridPosOf (suv : ℝ × ℝ) : ℝ × ℝ :=
  ((⌊suv.1⌋ : ℤ), ((⌊suv.2⌋ : ℤ) : ℝ))

/-- The hash scheme `fract(sin(dot(gridPos, k)) * 43758.5453)` shared by the
four per-cell hashes. -/
def hashOf (k gp : ℝ × ℝ) : ℝ :=
  Int.fract (Real.sin (dot2 gp k) * 43758.5453)

/-- `hash` — star presence hash, constants `(12.9898, 78.233)`. -/
def presenceHash (gp : ℝ × ℝ) : ℝ := hashOf (12.9898, 78.233) gp

/-- `hashX` — star offset x, constants `(127.1, 311.7)`. -/
def offsetHashX (gp : ℝ × ℝ) : ℝ := hashOf (127.1, 311.7) gp

/-- `hashY` — star offset y, constants `(269.5, 183.3)`. -/
def offsetHashY (gp : ℝ × ℝ) : ℝ := hashOf (269.5, 183.3) gp

/-- `sizeHash` — star size and brightness hash, constants `(415.2, 371.9)`. -/
def sizeHashOf (gp : ℝ × ℝ) : ℝ := hashOf (415.2, 371.9) gp

/-- GLSL `clamp(x, lo, hi) = min(max(x, lo), hi)`. -/
def glslClamp (x lo hi : ℝ) : ℝ := min (max x lo) hi

/-- GLSL `smoothstep(e0, e1, x)`. -/
def smoothstep (e0 e1 x : ℝ) : ℝ :=
  let t := glslClamp ((x - e0) / (e1 - e0)) 0 1
  t * t * (3 - 2 * t)

/-- `stars-layer.js` star-size constants: `starSize = 0.01 + 0.05 * sizeHash`. -/
def layerSizeBase : ℝ := 0.01

def layerSizeRange : ℝ := 0.05

/-- `part_000` star-size constants: `starSize = 0.015 + 0.025 * sizeHash`. -/
def pluginSizeBase : ℝ := 0.015

def pluginSizeRange : ℝ := 0.025

/-- `starSize = sizeBase + sizeRange * sizeHash`. -/
def starSizeOf (base range sh : ℝ) : ℝ := base + range * sh

/-- Distance computation inside the presence branch:
`localPos = fract(scaledUV); delta = (localPos - randomOffset) / 200.0;`
`delta.x /= max(0.3, cos(lat)); delta.y *= 2.0; dist = length(delta) * 200.0`. -/
def distOf (scaledUV gp : ℝ × ℝ) (lat : ℝ) : ℝ :=
  let randomOffset := (offsetHashX gp, offsetHashY gp)
  let localPos := (Int.fract scaledUV.1, Int.fract scaledUV.2)
  let delta := ((localPos.1 - randomOffset.1) / 200,
                (localPos.2 - randomOffset.2) / 200)
  let aspectCorrection := max 0.3 (Real.cos lat)
  let delta2 := (delta.1 / aspectCorrection, delta.2 * 2)
  Real.sqrt (delta2.1 ^ 2 + delta2.2 ^ 2) * 200

/-- Star strength of a present cell before the intensity multiply:
`stars = pow(1.0 - smoothstep(0.0, starSize, dist), 4.0) * (0.5 + 0.5 * sizeHash)`. -/
def strengthAt (base range dist sh : ℝ) : ℝ :=
  (1 - smoothstep 0 (starSizeOf base range sh) dist) ^ 4 * (0.5 + 0.5 * sh)

/-- `strengthAt` followed by `stars *= u_stars_intensity`. -/
def cellStrength (base range dist sh i : ℝ) : ℝ := strengthAt base range dist sh * i

/-- The star-field block of the shader `main` as a function of the already
computed presence hash (the `if (hash > THRESHOLD) { ... } else stars = 0`
branch followed by `stars *= u_stars_intensity`), with the baked threshold
passed as the `ℚ` literal the template substitutes. -/
def starsOfHash (base range : ℝ) (threshold : ℚ) (intensity hash : ℝ)
    (scaledUV gp : ℝ × ℝ) (lat : ℝ) : ℝ :=
  (if (threshold : ℝ) < hash then
    strengthAt base range (distOf scaledUV gp lat) (sizeHashOf gp)
  else 0) * intensity

/-- The star-field block with the hash computed from `gridPos` as in the
shader. -/
def starsValue (base range : ℝ) (threshold : ℚ) (intensity : ℝ)
    (scaledUV : ℝ × ℝ) (lat : ℝ) : ℝ :=
  starsOfHash base range threshold intensity (presenceHash (gridPosOf scaledUV))
    scaledUV (gridPosOf scaledUV) lat

/-- Grid position reached by a fragment: the full front end of the shader
(normalize, five rotations, spherical conversion, UV scaling, floor). -/
def fragGridPos (angles : ℝ × ℝ × ℝ) (center : ℝ × ℝ) (viewDir : ℝ × ℝ × ℝ) :
    ℝ × ℝ :=
  gridPosOf (scaledUVOf (uvOf (rayLngLat angles center (normalize3 viewDir))))

/-- The four per-cell hash values computed for a fragment. -/
def fragHashes (angles : ℝ × ℝ × ℝ) (center : ℝ × ℝ) (viewDir : ℝ × ℝ × ℝ) :
    ℝ × ℝ × ℝ × ℝ :=
  (presenceHash (fragGridPos angles center viewDir),
   offsetHashX (fragGridPos angles center viewDir),
   offsetHashY (fragGridPos angles center viewDir),
   sizeHashOf (fragGridPos angles center viewDir))

/-- The whole fragment `main` (scalar output: the star brightness written to
each of the RGB channels). -/
def fragmentStars (base range : ℝ) (threshold : ℚ) (intensity : ℝ)
    (angles : ℝ × ℝ × ℝ) (center : ℝ × ℝ) (viewDir : ℝ × ℝ × ℝ) : ℝ :=
  let ll := rayLngLat angles center (normalize3 viewDir)
  starsValue base range threshold intensity (scaledUVOf (uvOf ll)) ll.2

/-! ### Reference rotations for the refinement statement

Modelled from the spec: standard right-handed rotations about the X, Y and Z
axes, used to compare the shader blocks against the axis/order description in
the spec (§4.2). -/

/-- Standard rotation about the X axis. -/
def rotX_spec (θ : ℝ) (v : ℝ × ℝ × ℝ) : ℝ × ℝ × ℝ :=
  (v.1,
   Real.cos θ * v.2.1 - Real.sin θ * v.2.2,
   Real.sin θ * v.2.1 + Real.cos θ * v.2.2)

/-- Standard rotation about the Y axis. -/
def rotY_spec (θ : ℝ) (v : ℝ × ℝ × ℝ) : ℝ × ℝ × ℝ :=
  (Real.cos θ * v.1 + Real.sin θ * v.2.2,
   v.2.1,
   -Real.sin θ * v.1 + Real.cos θ * v.2.2)

/-- Standard rotation about the Z axis. -/
def rotZ_spec (θ : ℝ) (v : ℝ × ℝ × ℝ) : ℝ × ℝ × ℝ :=
  (Real.cos θ * v.1 - Real.sin θ * v.2.1,
   Real.sin θ * v.1 + Real.cos θ * v.2.1,
   v.2.2)

end

/-! ## Supporting lemmas -/

lemma toFixed2_eq (x : ℚ) (n : ℤ) (h1 : (n : ℚ) ≤ x * 100 + 1/2)
    (h2 : x * 100 + 1/2 < (n : ℚ) + 1) : toFixed2 x = (n : ℚ) / 100 := by
  rw [toFixed2, round_eq, Int.floor_eq_iff.mpr ⟨h1, h2⟩]

lemma effectiveDensity_of_ne (x : ℚ) (hx : x ≠ 0) :
    effectiveDensity (some x) = x := by
  simp [effectiveDensity, hx]

lemma shaderThreshold_none : shaderThreshold none = 85/100 := by
  rw [shaderThreshold, effectiveDensity, bakedThreshold,
    toFixed2_eq _ 85 (by norm_num) (by norm_num)]
  norm_num

lemma shaderThreshold_0123 : shaderThreshold (some (123/1000)) = 88/100 := by
  rw [shaderThreshold, effectiveDensity_of_ne _ (by norm_num), bakedThreshold,
    toFixed2_eq _ 88 (by norm_num) (by norm_num)]
  norm_num

lemma glslClamp_of_one_le (x : ℝ) (h : 1 ≤ x) : glslClamp x 0 1 = 1 := by
  rw [glslClamp, max_eq_left (le_trans zero_le_one h), min_eq_right h]

lemma smoothstep_saturate (e1 x : ℝ) (he : 0 < e1) (h : e1 ≤ x) :
    smoothstep 0 e1 x = 1 := by
  have hx : (1 : ℝ) ≤ (x - 0) / (e1 - 0) := by
    rw [sub_zero, sub_zero, one_le_div he]
    exact h
  simp only [smoothstep]
  rw [glslClamp_of_one_le _ hx]
  norm_num

lemma smoothstep_at_zero (e1 : ℝ) : smoothstep 0 e1 0 = 0 := by
  simp [smoothstep, glslClamp]

lemma starSizeOf_pos (base range sh : ℝ) (hb : 0 < base) (hr : 0 ≤ range)
    (hs : 0 ≤ sh) : 0 < starSizeOf base range sh :=
  add_pos_of_pos_of_nonneg hb (mul_nonneg hr hs)

lemma cellStrength_nonneg (base range dist sh i : ℝ) (hs : 0 ≤ sh)
    (hi : 0 ≤ i) : 0 ≤ cellStrength base range dist sh i := by
  rw [cellStrength, strengthAt]
  have h1 : (0:ℝ) ≤ (1 - smoothstep 0 (starSizeOf base range sh) dist) ^ 4 := by
    positivity
  have h2 : (0:ℝ) ≤ 0.5 + 0.5 * sh := by linarith
  exact mul_nonneg (mul_nonneg h1 h2) hi

lemma cellStrength_far (base range dist sh i : ℝ)
    (hss : 0 < starSizeOf base range sh) (h : starSizeOf base range sh ≤ dist) :
    cellStrength base range dist sh i = 0 := by
  rw [cellStrength, strengthAt, smoothstep_saturate _ _ hss h]
  ring

lemma cellStrength_at_zero (base range sh i : ℝ) :
    cellStrength base range 0 sh i = (0.5 + 0.5 * sh) * i := by
  rw [cellStrength, strengthAt, smoothstep_at_zero]
  ring

/-! ## Claims -/

/-- C1, counterexample. The plugin `_render` restores the snapshotted state
through JS truthiness guards, so starting from the default GL context (no
program bound, `BLEND_DST = ZERO = 0`) the active program and both blend
factors are NOT restored after the draw; and the `stars-layer.js` variant
performs no snapshot/restore at all, leaving its own program bound. -/
theorem render_restore_skips_falsy_cex :
    ((StarsPlugin.render pluginReady 1 glContextDefault).1.currentProgram ≠
      glContextDefault.currentProgram) ∧
    ((StarsPlugin.render pluginReady 1 glContextDefault).1.blendSrc ≠
      glContextDefault.blendSrc) ∧
    ((StarsPlugin.render pluginReady 1 glContextDefault).1.blendDst ≠
      glContextDefault.blendDst) ∧
    ((StarsLayer.render layerReady 1 glContextDefault).map
      (fun r => r.1.currentProgram) ≠ some glContextDefault.currentProgram) := by
  decide

/-- C1, as amended. For every plugin render call that reaches the draw and
every prior GL state, the depth function, depth write mask and blend enable
flag always equal their pre-call values; the active program is restored
provided a program was bound before the call, and the blend
source/destination factors provided both prior factors were nonzero (the
values skipped by the falsy guards of the counterexample). -/
theorem render_restores_state (p : PluginState) (t : ℚ) (gl : GLState)
    (hm : p.map = true) (hp : p.program ≠ none) (ht : t ≠ 0) :
    (StarsPlugin.render p t gl).1.depthFunc = gl.depthFunc ∧
    (StarsPlugin.render p t gl).1.depthMask = gl.depthMask ∧
    (StarsPlugin.render p t gl).1.blendEnabled = gl.blendEnabled ∧
    (gl.currentProgram ≠ none →
      (StarsPlugin.render p t gl).1.currentProgram = gl.currentProgram) ∧
    (gl.blendSrc ≠ 0 → gl.blendDst ≠ 0 →
      (StarsPlugin.render p t gl).1.blendSrc = gl.blendSrc ∧
      (StarsPlugin.render p t gl).1.blendDst = gl.blendDst) := by
  obtain ⟨cp, df, dm, be, bs, bd, dt, ab, eb⟩ := gl
  rw [StarsPlugin.render, if_neg (by simp [hm, hp]), if_neg ht]
  cases cp <;> cases be <;>
    by_cases hbs : bs = 0 <;> by_cases hbd : bd = 0 <;>
      simp [hbs, hbd]

/-- C1 witness: a concrete host state with a bound program and standard alpha
blending is fully restored. -/
theorem render_restores_state_witness :
    pluginReady.map = true ∧ pluginReady.program ≠ none ∧ (1 : ℚ) ≠ 0 ∧
    glBusy.currentProgram ≠ none ∧ glBusy.blendSrc ≠ 0 ∧ glBusy.blendDst ≠ 0 ∧
    ((StarsPlugin.render pluginReady 1 glBusy).1.currentProgram =
        glBusy.currentProgram ∧
      (StarsPlugin.render pluginReady 1 glBusy).1.depthFunc = glBusy.depthFunc ∧
      (StarsPlugin.render pluginReady 1 glBusy).1.depthMask = glBusy.depthMask ∧
      (StarsPlugin.render pluginReady 1 glBusy).1.blendEnabled =
        glBusy.blendEnabled ∧
      (StarsPlugin.render pluginReady 1 glBusy).1.blendSrc = glBusy.blendSrc ∧
      (StarsPlugin.render pluginReady 1 glBusy).1.blendDst = glBusy.blendDst) := by
  have h := render_restores_state pluginReady 1 glBusy rfl (by decide) (by decide)
  exact ⟨rfl, by decide, by decide, by decide, by decide, by decide,
    h.2.2.2.1 (by decide), h.1, h.2.1, h.2.2.1,
    (h.2.2.2.2 (by decide) (by decide)).1,
    (h.2.2.2.2 (by decide) (by decide)).2⟩

/-- C2: with valid resources, a frame with `projectionTransition = 0` issues
zero draw calls and leaves the GL state unchanged, and a frame with
`projectionTransition > 0` issues exactly one draw call — in both variants. -/
theorem render_gate (p : PluginState) (l : LayerState) (t : ℚ) (gl : GLState)
    (hm : p.map = true) (hp : p.program ≠ none) (hl : l.map = true)
    (ht : 0 < t) :
    StarsPlugin.render p 0 gl = (gl, 0) ∧
    StarsLayer.render l 0 gl = some (gl, 0) ∧
    (StarsPlugin.render p t gl).2 = 1 ∧
    (StarsLayer.render l t gl).map Prod.snd = some 1 := by
  refine ⟨?_, ?_, ?_, ?_⟩
  · rw [StarsPlugin.render, if_neg (by simp [hm, hp]), if_pos rfl]
  · rw [StarsLayer.render, if_neg (by simp [hl]), if_pos rfl]
  · rw [StarsPlugin.render, if_neg (by simp [hm, hp]), if_neg (by simp [ht.ne'])]
  · rw [StarsLayer.render, if_neg (by simp [hl]), if_neg (by simp [ht.ne'])]
    rfl

/-- C2 witness at `projectionTransition = 1` against a concrete busy host
state. -/
theorem render_gate_witness :
    pluginReady.map = true ∧ pluginReady.program ≠ none ∧
    layerReady.map = true ∧ (0 : ℚ) < 1 ∧
    (StarsPlugin.render pluginReady 0 glBusy = (glBusy, 0) ∧
      StarsLayer.render layerReady 0 glBusy = some (glBusy, 0) ∧
      (StarsPlugin.render pluginReady 1 glBusy).2 = 1 ∧
      (StarsLayer.render layerReady 1 glBusy).map Prod.snd = some 1) :=
  ⟨rfl, by decide, rfl, by decide,
    render_gate pluginReady layerReady 1 glBusy rfl (by decide) rfl (by decide)⟩

/-- C3, counterexample. The claim says a star exists iff
`h > 1 - density` for every density in `[0,1]`; but the threshold is baked
with `toFixed(2)`, so for density `0.123` the compiled threshold is `0.88`,
and a hash of `0.879` satisfies `h > 1 - d` while the shader takes the
no-star branch and yields strength 0. -/
theorem presence_threshold_cex :
    (1 - ((123/1000 : ℚ) : ℝ) < 0.879) ∧
    ¬ ((shaderThreshold (some (123/1000)) : ℝ) < 0.879) ∧
    starsOfHash layerSizeBase layerSizeRange (shaderThreshold (some (123/1000)))
      20 0.879 (0, 0) (0, 0) 0 = 0 := by
  have ht : ¬ ((shaderThreshold (some (123/1000)) : ℝ) < 0.879) := by
    rw [shaderThreshold_0123]
    push_cast
    norm_num
  refine ⟨by push_cast; norm_num, ht, ?_⟩
  rw [starsOfHash, if_neg ht, zero_mul]

/-- C3, as amended. The presence hash is exactly
`fract(sin(dot(gridPos, (12.9898, 78.233))) * 43758.5453)`; the star-exists
test compares it against the compiled threshold, which is `1 - d` for the
effective density `d` ROUNDED to two decimal places (`toFixed(2)`); and any
cell whose hash fails that test produces strength exactly 0. -/
theorem presence_threshold_rounded (d : Option ℚ) (base range i h lat : ℝ)
    (suv gp : ℝ × ℝ) :
    presenceHash gp =
      Int.fract (Real.sin (gp.1 * 12.9898 + gp.2 * 78.233) * 43758.5453) ∧
    shaderThreshold d = toFixed2 (1 - effectiveDensity d) ∧
    starsValue base range (shaderThreshold d) i suv lat =
      starsOfHash base range (shaderThreshold d) i
        (presenceHash (gridPosOf suv)) suv (gridPosOf suv) lat ∧
    (¬ ((shaderThreshold d : ℝ) < h) →
      starsOfHash base range (shaderThreshold d) i h suv gp lat = 0) := by
  refine ⟨rfl, rfl, rfl, fun hno => ?_⟩
  rw [starsOfHash, if_neg hno, zero_mul]

/-- C3 witness: with the default density, a hash of 0 fails the presence test
and the strength is 0. -/
theorem presence_threshold_rounded_witness :
    ¬ ((shaderThreshold none : ℝ) < 0) ∧
    starsOfHash layerSizeBase layerSizeRange (shaderThreshold none) 20 0
      (0, 0) (0, 0) 0 = 0 := by
  have h0 : ¬ ((shaderThreshold none : ℝ) < 0) := by
    rw [shaderThreshold_none]
    push_cast
    norm_num
  exact ⟨h0, (presence_threshold_rounded none layerSizeBase layerSizeRange
    20 0 0 (0, 0) (0, 0)).2.2.2 h0⟩

/-- C4: for a present cell (both star-size variants), the strength is never
negative, is exactly 0 for any `dist ≥ starSize` (smoothstep saturation), and
at `dist = 0` equals `(0.5 + 0.5 * sizeHash) * intensity`. -/
theorem strength_bounds (dist0 distFar sh i : ℝ) (hsh : 0 ≤ sh) (hi : 0 ≤ i)
    (hL : starSizeOf layerSizeBase layerSizeRange sh ≤ distFar)
    (hP : starSizeOf pluginSizeBase pluginSizeRange sh ≤ distFar) :
    (0 ≤ cellStrength layerSizeBase layerSizeRange dist0 sh i) ∧
    cellStrength layerSizeBase layerSizeRange distFar sh i = 0 ∧
    cellStrength layerSizeBase layerSizeRange 0 sh i = (0.5 + 0.5 * sh) * i ∧
    (0 ≤ cellStrength pluginSizeBase pluginSizeRange dist0 sh i) ∧
    cellStrength pluginSizeBase pluginSizeRange distFar sh i = 0 ∧
    cellStrength pluginSizeBase pluginSizeRange 0 sh i = (0.5 + 0.5 * sh) * i := by
  have hbL : (0:ℝ) < layerSizeBase := by norm_num [layerSizeBase]
  have hrL : (0:ℝ) ≤ layerSizeRange := by norm_num [layerSizeRange]
  have hbP : (0:ℝ) < pluginSizeBase := by norm_num [pluginSizeBase]
  have hrP : (0:ℝ) ≤ pluginSizeRange := by norm_num [pluginSizeRange]
  exact ⟨cellStrength_nonneg _ _ _ _ _ hsh hi,
    cellStrength_far _ _ _ _ _ (starSizeOf_pos _ _ _ hbL hrL hsh) hL,
    cellStrength_at_zero _ _ _ _,
    cellStrength_nonneg _ _ _ _ _ hsh hi,
    cellStrength_far _ _ _ _ _ (starSizeOf_pos _ _ _ hbP hrP hsh) hP,
    cellStrength_at_zero _ _ _ _⟩

/-- C4 witness at `sizeHash = 0`, `intensity = 1`, far distance 1. -/
theorem strength_bounds_witness :
    (0:ℝ) ≤ 0 ∧ (0:ℝ) ≤ 1 ∧
    starSizeOf layerSizeBase layerSizeRange 0 ≤ 1 ∧
    starSizeOf pluginSizeBase pluginSizeRange 0 ≤ 1 ∧
    ((0 ≤ cellStrength layerSizeBase layerSizeRange 7 0 1) ∧
      cellStrength layerSizeBase layerSizeRange 1 0 1 = 0 ∧
      cellStrength layerSizeBase layerSizeRange 0 0 1 = (0.5 + 0.5 * 0) * 1 ∧
      (0 ≤ cellStrength pluginSizeBase pluginSizeRange 7 0 1) ∧
      cellStrength pluginSizeBase pluginSizeRange 1 0 1 = 0 ∧
      cellStrength pluginSizeBase pluginSizeRange 0 0 1 = (0.5 + 0.5 * 0) * 1) :=
  ⟨le_refl 0, by norm_num,
    by norm_num [starSizeOf, layerSizeBase, layerSizeRange],
    by norm_num [starSizeOf, pluginSizeBase, pluginSizeRange],
    strength_bounds 7 1 0 1 (le_refl 0) (by norm_num)
      (by norm_num [starSizeOf, layerSizeBase, layerSizeRange])
      (by norm_num [starSizeOf, pluginSizeBase, pluginSizeRange])⟩

/-- C5: the shader transform is exactly the composition, in this order, of a
rotation about the X axis by the pitch angle, about the Y axis by the bearing
angle, about the Z axis by the roll angle, about the X axis by the
globe-center latitude and about the Y axis by the globe-center longitude
(bearing and latitude enter through the opposite orientation of the standard
right-handed rotations, hence the negated arguments), and the output is
`lng = atan2(x, z)`, `lat = asin(y)` of the fully rotated vector. -/
theorem rotation_order (angles : ℝ × ℝ × ℝ) (center : ℝ × ℝ) (v : ℝ × ℝ × ℝ) :
    rotatedRay angles center v =
      rotY_spec center.1 (rotX_spec (-center.2)
        (rotZ_spec angles.2.2 (rotY_spec (-angles.2.1)
          (rotX_spec angles.1 v)))) ∧
    rayLngLat angles center v =
      (atan2 (rotatedRay angles center v).1 (rotatedRay angles center v).2.2,
       Real.arcsin (rotatedRay angles center v).2.1) := by
  obtain ⟨x, y, z⟩ := v
  refine ⟨?_, rfl⟩
  simp only [rotatedRay, rotPitch, rotBearing, rotRoll, rotGlobeLat,
    rotGlobeLng, rotX_spec, rotY_spec, rotZ_spec, Real.cos_neg, Real.sin_neg,
    Prod.mk.injEq]
  refine ⟨?_, ?_, ?_⟩ <;> ring

/-- C6: with pitch = bearing = roll = 0 and globe-center = (0, 0), the rotated
vector equals the input ray unchanged. -/
theorem rotation_identity (v : ℝ × ℝ × ℝ) :
    rotatedRay (0, 0, 0) (0, 0) v = v := by
  obtain ⟨x, y, z⟩ := v
  simp [rotatedRay, rotPitch, rotBearing, rotRoll, rotGlobeLat, rotGlobeLng]

/-- C7: the presence, offset, size and brightness hashes computed for a
fragment are functions of its grid cell and the fixed constants alone: any
two evaluations of the pipeline (under arbitrary camera angles, globe centers
and view rays) that land in the same grid cell produce identical hash
values. -/
theorem hash_determinism (a1 a2 : ℝ × ℝ × ℝ) (c1 c2 : ℝ × ℝ)
    (v1 v2 : ℝ × ℝ × ℝ)
    (h : fragGridPos a1 c1 v1 = fragGridPos a2 c2 v2) :
    fragHashes a1 c1 v1 = fragHashes a2 c2 v2 := by
  simp only [fragHashes]
  rw [h]

/-- C7 witness: two evaluations at the same concrete inputs share the grid
cell and hence the hashes. -/
theorem hash_determinism_witness :
    fragGridPos (0, 0, 0) (0, 0) (0, 0, 1) =
      fragGridPos (0, 0, 0) (0, 0) (0, 0, 1) ∧
    fragHashes (0, 0, 0) (0, 0) (0, 0, 1) =
      fragHashes (0, 0, 0) (0, 0) (0, 0, 1) :=
  ⟨rfl, hash_determinism _ _ _ _ _ _ rfl⟩

/-- C8, counterexample. The `stars-layer.js` variant has no guard: called
before the layer is attached (no map reference), `render` dereferences
`this.map.transform` and throws instead of being a no-op. -/
theorem render_unattached_layer_cex :
    StarsLayer.render
      { map := false, program := none, vertexBuffer := none,
        indexBuffer := none } 1 glContextDefault = none := by
  decide

/-- C8, as amended. In the plugin variant, whenever the map or program
reference is null — in particular in the constructor state (before attach)
and after `onRemove` (detach) — `_render` returns without drawing and without
touching the GL state. -/
theorem render_noop_detached (p q : PluginState) (t : ℚ) (gl : GLState)
    (h : p.map = false ∨ p.program = none) :
    StarsPlugin.render p t gl = (gl, 0) ∧
    StarsPlugin.render StarsPlugin.init t gl = (gl, 0) ∧
    StarsPlugin.render (StarsPlugin.onRemove q) t gl = (gl, 0) := by
  have key : ∀ r : PluginState, (r.map = false ∨ r.program = none) →
      StarsPlugin.render r t gl = (gl, 0) := by
    intro r hr
    rw [StarsPlugin.render, if_pos hr]
  exact ⟨key p h, key _ (Or.inl rfl), key _ (Or.inl rfl)⟩

/-- C8 witness: the freshly constructed plugin ignores a render call. -/
theorem render_noop_detached_witness :
    (StarsPlugin.init.map = false ∨ StarsPlugin.init.program = none) ∧
    (StarsPlugin.render StarsPlugin.init 1 glBusy = (glBusy, 0) ∧
      StarsPlugin.render StarsPlugin.init 1 glBusy = (glBusy, 0) ∧
      StarsPlugin.render (StarsPlugin.onRemove pluginReady) 1 glBusy =
        (glBusy, 0)) :=
  ⟨Or.inl rfl,
    render_noop_detached StarsPlugin.init pluginReady 1 glBusy (Or.inl rfl)⟩

/-- C9, counterexample. In the `stars-layer.js` variant a compile failure is
logged but the program handle stays the non-null object returned by
`gl.createProgram()`, and a later render still issues its draw call instead
of becoming a no-op. -/
theorem attach_failure_layer_cex :
    (StarsLayer.onAddResources false true true).1.program = some 3 ∧
    1 ≤ (StarsLayer.onAddResources false true true).2 ∧
    (StarsLayer.render (StarsLayer.onAddResources false true true).1 1
      glContextDefault).map Prod.snd = some 1 := by
  decide

/-- C9, as amended. In the plugin variant, any shader compile failure or
program link failure at attach time logs at least one diagnostic and leaves
the program handle null, and every subsequent render call is then a no-op via
the null guard. -/
theorem attach_failure_noop (vsOk fsOk linkOk : Bool) (t : ℚ) (gl : GLState)
    (h : vsOk = false ∨ fsOk = false ∨ linkOk = false) :
    (StarsPlugin.onAddResources vsOk fsOk linkOk).1.program = none ∧
    1 ≤ (StarsPlugin.onAddResources vsOk fsOk linkOk).2 ∧
    StarsPlugin.render (StarsPlugin.onAddResources vsOk fsOk linkOk).1 t gl =
      (gl, 0) := by
  have hprog : (StarsPlugin.onAddResources vsOk fsOk linkOk).1.program = none := by
    cases vsOk <;> cases fsOk <;> cases linkOk <;>
      simp_all [StarsPlugin.onAddResources, StarsPlugin.createShader,
        StarsPlugin.createProgram]
  refine ⟨hprog, ?_, ?_⟩
  · cases vsOk <;> cases fsOk <;> cases linkOk <;>
      simp_all [StarsPlugin.onAddResources, StarsPlugin.createShader,
        StarsPlugin.createProgram]
  · rw [StarsPlugin.render, if_pos (Or.inr hprog)]

/-- C9 witness: a vertex-shader compile failure degrades to a no-op render. -/
theorem attach_failure_noop_witness :
    (false = false ∨ true = false ∨ true = false) ∧
    ((StarsPlugin.onAddResources false true true).1.program = none ∧
      1 ≤ (StarsPlugin.onAddResources false true true).2 ∧
      StarsPlugin.render (StarsPlugin.onAddResources false true true).1 1
        glBusy = (glBusy, 0)) :=
  ⟨Or.inl rfl, attach_failure_noop false true true 1 glBusy (Or.inl rfl)⟩

/-- C10: a supplied density or intensity of 0 is falsy under `||`, so the
defaults (0.15 and 20.0) are used instead; and the baked presence threshold
rounds `1 - density` to two decimal places, so the densities 0.151 and 0.152
— which differ by less than 0.005 — compile to the same threshold and hence
the same star field. -/
theorem falsy_defaults_and_rounding :
    effectiveDensity (some 0) = 15/100 ∧
    effectiveIntensity (some 0) = 20 ∧
    (151/1000 : ℚ) ≠ 152/1000 ∧
    |(151/1000 : ℚ) - 152/1000| < 5/1000 ∧
    shaderThreshold (some (151/1000)) = shaderThreshold (some (152/1000)) := by
  have h151 : shaderThreshold (some (151/1000)) = 85/100 := by
    rw [shaderThreshold, effectiveDensity_of_ne _ (by norm_num), bakedThreshold,
      toFixed2_eq _ 85 (by norm_num) (by norm_num)]
    norm_num
  have h152 : shaderThreshold (some (152/1000)) = 85/100 := by
    rw [shaderThreshold, effectiveDensity_of_ne _ (by norm_num), bakedThreshold,
      toFixed2_eq _ 85 (by norm_num) (by norm_num)]
    norm_num
  refine ⟨by simp [effectiveDensity], by simp [effectiveIntensity],
    by norm_num, ?_, h151.trans h152.symm⟩
  rw [abs_of_nonpos (by norm_num)]
  norm_num

end Stars
